import Mathlib

/-!
Verification of the result-aggregation and presentation-normalization layer
of the job-finder frontend (`src/frontend/src/App.jsx`), as a shallow
embedding in Lean.  JavaScript values returned by `res.json()` are modelled
by the inductive `JVal`; JavaScript truthiness is made explicit; the
component's state updates are modelled as pure state-transition functions.
-/

namespace JobFinder

/-- A parsed JSON value, as produced by `res.json()`.  JavaScript objects are
modelled as association lists with distinct keys (JSON parsing keeps one
binding per key). -/
inductive JVal where
  | jnull : JVal
  | jbool : Bool → JVal
  | jnum : Int → JVal
  | jstr : String → JVal
  | jarr : List JVal → JVal
  | jobj : List (String × JVal) → JVal
deriving Repr

/-- JavaScript truthiness of a parsed JSON value: `null`, `false`, `0` and
the empty string are falsy; arrays and objects are always truthy. -/
def JVal.truthy : JVal → Bool
  | .jnull => false
  | .jbool b => b
  | .jnum n => n != 0
  | .jstr s => s != ""
  | .jarr _ => true
  | .jobj _ => true

/-- Result of evaluating the line
`const jobsFromApi = Array.isArray(data) ? data : (data.jobs || []);`
on the parsed body `data`.  An array is taken as-is.  Property access
`data.jobs` throws a `TypeError` when `data` is `null` (modelled by
`Except.error ()`); on a non-null non-object it yields `undefined`, which is
falsy, so `|| []` produces the empty array; on an object, a present truthy
`jobs` field is used and a missing or falsy one falls back to `[]`. -/
def jobsFromApi : JVal → Except Unit JVal
  | .jarr xs => .ok (.jarr xs)
  | .jnull => .error ()
  | .jobj fields =>
      .ok (match fields.lookup "jobs" with
        | some v => if v.truthy then v else .jarr []
        | none => .jarr [])
  | _ => .ok (.jarr [])

/-- The user-entered filter fields, each a React state string (`role`,
`city`, `expMin`, `expMax` in `App`).  Number inputs still yield strings
(`e.target.value`). -/
structure Filter where
  role : String
  city : String
  expMin : String
  expMax : String
deriving Repr, DecidableEq

/-- The initial filter state of the component:
`useState("Software Engineer")`, `useState("Pune")`, `useState("")`,
`useState("")`. -/
def defaultFilter : Filter :=
  { role := "Software Engineer", city := "Pune", expMin := "", expMax := "" }

/-- The request parameter mapping built at the top of `fetchJobs`:
`new URLSearchParams({ role, city })`, then `exp_min` / `exp_max` appended
only when the corresponding string is truthy (a string is truthy exactly
when it is non-empty), then `params.append("size", "50")`. -/
def buildParams (f : Filter) : List (String × String) :=
  [("role", f.role), ("city", f.city)]
    ++ (if f.expMin != "" then [("exp_min", f.expMin)] else [])
    ++ (if f.expMax != "" then [("exp_max", f.expMax)] else [])
    ++ [("size", "50")]

/-- Outcome of the single `fetch` call in `fetchJobs`: the transport itself
may fail (the promise rejects), or a response arrives with a status and,
when the body is valid JSON, a parsed body.  `jsonBad` models a response
whose body `res.json()` fails to parse. -/
inductive FetchOutcome where
  | transportError : FetchOutcome
  | jsonBad : Nat → FetchOutcome
  | httpResponse : Nat → JVal → FetchOutcome
deriving Repr

/-- `res.ok`: status in the inclusive range 200–299. -/
def statusOk (st : Nat) : Bool :=
  decide (200 ≤ st ∧ st < 300)

/-- The component state touched by `fetchJobs`: the stored result set
(`jobs`), the 1-based display page (`currentPage`), and the error banner
text (`error`, empty when no error is shown). -/
structure SearchState where
  jobs : JVal
  currentPage : Nat
  error : String
deriving Repr

/-- The fixed user-facing message set by the `catch` branch of
`fetchJobs`. -/
def errMsg : String :=
  "Unable to fetch jobs. Check backend is running and API key is set."

/-- State update performed by one run of `fetchJobs` once the fetch outcome
is known.  `setError("")` runs first; a non-ok status throws
(`throw new Error(...)`) before the body is read; a body-parse failure or a
`TypeError` inside the decode line also lands in `catch`.  The `catch`
branch only sets the error message: `jobs` and `currentPage` keep their
previous values.  On success `setJobs(jobsFromApi)` and `setCurrentPage(1)`
run and the error text stays cleared. -/
def fetchJobsStep (o : FetchOutcome) (s : SearchState) : SearchState :=
  match o with
  | .transportError => { s with error := errMsg }
  | .jsonBad _ => { s with error := errMsg }
  | .httpResponse st body =>
      if statusOk st then
        match jobsFromApi body with
        | .ok js => { jobs := js, currentPage := 1, error := "" }
        | .error _ => { s with error := errMsg }
      else { s with error := errMsg }

/-- The list of requests a single run of `fetchJobs` issues, each given by
its parameter mapping.  The source performs exactly one
`await fetch(API_BASE + "/jobs?" + params)` — there is no page loop and no
`page` parameter (source comment: "ONE call to your backend – backend
already has num_pages: 3") — so the trace is the singleton list. -/
def searchRequests (f : Filter) : List (List (String × String)) :=
  [buildParams f]

/-- A whole run of `fetchJobs` against an upstream modelled as a function
from the request's parameter mapping to its fetch outcome. -/
def fetchJobs (upstream : List (String × String) → FetchOutcome)
    (f : Filter) (s : SearchState) : SearchState :=
  fetchJobsStep (upstream (buildParams f)) s

/-- The salary fields of a listing record.  Each is an optional
non-negative integer amount; `none` models an absent field. -/
structure Job where
  salary_min : Option Nat
  salary_max : Option Nat
  salary_est_min : Option Nat
  salary_est_max : Option Nat
deriving Repr, DecidableEq

/-- JavaScript truthiness of an optional amount: absent and `0` are falsy,
any other number is truthy. -/
def amtTruthy : Option Nat → Bool
  | none => false
  | some v => v != 0

/-- Decimal rendering of `(amount / 100000).toFixed(1)` followed by
`" LPA"`.  The displayed number of tenths is the integer nearest to
`amount / 10000`, ties resolved upward, which is ECMAScript's `toFixed`
tie rule; the division and rounding are modelled over exact rationals
(IEEE-754 representation error, which can flip an exact tie, is not
modelled). -/
def toFixed1LPA (v : Nat) : String :=
  let tenths := (v + 5000) / 10000
  toString (tenths / 10) ++ "." ++ toString (tenths % 10) ++ " LPA"

/-- The function `formatINR`: a falsy amount (absent or `0`) yields `null`
(`none`); otherwise `amount / 100000` is rendered with one decimal digit
and the fixed suffix. -/
def formatINR (amount : Option Nat) : Option String :=
  match amount with
  | none => none
  | some v => if v = 0 then none else some (toFixed1LPA v)

/-- Rendering of a `formatINR` result inside JSX text: React renders
`null` as nothing, so a falsy amount contributes the empty string. -/
def fmtOpt (amount : Option Nat) : String :=
  (formatINR amount).getD ""

/-- The flag `const hasRealSalary = job.salary_min || job.salary_max`. -/
def hasRealSalary (j : Job) : Bool :=
  amtTruthy j.salary_min || amtTruthy j.salary_max

/-- The flag `const hasEst = job.salary_est_min || job.salary_est_max`. -/
def hasEst (j : Job) : Bool :=
  amtTruthy j.salary_est_min || amtTruthy j.salary_est_max

/-- The three mutually exclusive salary branches of the listing card:
real salary (with its text), estimated range (with its text), or the
"Salary not available" marker. -/
inductive SalaryCell where
  | real : String → SalaryCell
  | estimated : String → SalaryCell
  | notAvailable : SalaryCell
deriving Repr, DecidableEq

/-- The salary cell of a listing card, translated from the JSX: the
`hasRealSalary` branch renders the nested ternary on
`salary_min && salary_max` / `salary_min` / `salary_max` (with a trailing
empty-string fallback), the `!hasRealSalary && hasEst` branch renders
`formatINR(est_min) – formatINR(est_max)`, and the remaining branch
renders the fixed "Salary not available" text. -/
def salaryCell (j : Job) : SalaryCell :=
  if hasRealSalary j then
    .real
      (if amtTruthy j.salary_min && amtTruthy j.salary_max then
        fmtOpt j.salary_min ++ " – " ++ fmtOpt j.salary_max
      else if amtTruthy j.salary_min then
        "From " ++ fmtOpt j.salary_min
      else if amtTruthy j.salary_max then
        "Up to " ++ fmtOpt j.salary_max
      else "")
  else if hasEst j then
    .estimated (fmtOpt j.salary_est_min ++ " – " ++ fmtOpt j.salary_est_max)
  else
    .notAvailable

/-- Salary display written from the specification's words: if
`salary_min` or `salary_max` is truthy, display a real salary (both
present a range, only min "From", only max "Up to"); else if an estimated
bound is truthy, display the estimated range; else the
"Salary not available" marker. -/
def specSalaryCell (j : Job) : SalaryCell :=
  if amtTruthy j.salary_min || amtTruthy j.salary_max then
    .real
      (if amtTruthy j.salary_min && amtTruthy j.salary_max then
        fmtOpt j.salary_min ++ " – " ++ fmtOpt j.salary_max
      else if amtTruthy j.salary_min then
        "From " ++ fmtOpt j.salary_min
      else
        "Up to " ++ fmtOpt j.salary_max)
  else if amtTruthy j.salary_est_min || amtTruthy j.salary_est_max then
    .estimated (fmtOpt j.salary_est_min ++ " – " ++ fmtOpt j.salary_est_max)
  else
    .notAvailable

/-- The UI page size constant `const jobsPerPage = 10`. -/
def jobsPerPage : Nat := 10

/-- The page count used by the "Next" button's disabled check:
`Math.ceil(jobs.length / jobsPerPage)`, as a function of the result-set
length (ceiling division, with no lower bound — an empty result set gives
`0`). -/
def pageCount (n : Nat) : Nat :=
  (n + (jobsPerPage - 1)) / jobsPerPage

/-- The pagination-relevant component state: the length of the stored
result set and the 1-based current page. -/
structure PageState where
  jobs : Nat
  page : Nat
deriving Repr, DecidableEq

/-- The user-visible events that touch the pagination state: clicking
"Previous", clicking "Next", a search completing successfully with a
result set of a given length, and a search failing. -/
inductive UIEvent where
  | prevClick : UIEvent
  | nextClick : UIEvent
  | searchSuccess : Nat → UIEvent
  | searchFail : UIEvent
deriving Repr, DecidableEq

/-- One pagination state transition.  A click on a disabled button is a
no-op: "Previous" is disabled exactly when `currentPage === 1` and
"Next" exactly when `currentPage === Math.ceil(jobs.length / jobsPerPage)`;
otherwise the clicks run `setCurrentPage(currentPage - 1)` /
`setCurrentPage(currentPage + 1)`.  A successful search stores the new
result set and runs `setCurrentPage(1)`; a failed search leaves both
untouched. -/
def stepUI (e : UIEvent) (s : PageState) : PageState :=
  match e with
  | .prevClick => if s.page = 1 then s else { s with page := s.page - 1 }
  | .nextClick =>
      if s.page = pageCount s.jobs then s else { s with page := s.page + 1 }
  | .searchSuccess n => { jobs := n, page := 1 }
  | .searchFail => s

/-- The mount-time pagination state: `useState([])` for `jobs` and
`useState(1)` for `currentPage`. -/
def initPageState : PageState :=
  { jobs := 0, page := 1 }

/-- The pagination state reached from the mount state after a sequence of
events. -/
def runUI (es : List UIEvent) : PageState :=
  es.foldl (fun s e => stepUI e s) initPageState

/-- The pagination invariant: the current page is at least 1, and as long
as the stored result set is non-empty it does not exceed the page
count. -/
def PageInv (s : PageState) : Prop :=
  1 ≤ s.page ∧ (s.jobs ≠ 0 → s.page ≤ pageCount s.jobs)

/-- A sample opaque listing record. -/
def jobA : JVal := .jobj [("title", .jstr "Job A")]

/-- A sample opaque listing record. -/
def jobB : JVal := .jobj [("title", .jstr "Job B")]

/-- A sample opaque listing record. -/
def jobC : JVal := .jobj [("title", .jstr "Job C")]

/-- A sample opaque listing record. -/
def jobD : JVal := .jobj [("title", .jstr "Job D")]

/-- A sample opaque listing record. -/
def jobE : JVal := .jobj [("title", .jstr "Job E")]

/-- A concrete bare-array upstream whose pages 1, 2, 3 hold 2, 3 and 0
records respectively; a request that carries no `page` parameter receives
the first page. -/
def pagedUpstream (ps : List (String × String)) : FetchOutcome :=
  match ps.lookup "page" with
  | some p =>
      if p = "1" then .httpResponse 200 (.jarr [jobA, jobB])
      else if p = "2" then .httpResponse 200 (.jarr [jobC, jobD, jobE])
      else .httpResponse 200 (.jarr [])
  | none => .httpResponse 200 (.jarr [jobA, jobB])

/-- The component state at mount time: `useState([])` for `jobs`,
`useState(1)` for `currentPage`, `useState("")` for `error`. -/
def initialSearchState : SearchState :=
  { jobs := .jarr [], currentPage := 1, error := "" }

/-- Length of a stored result set (the length of the array, `0` on a
non-array value). -/
def jarrLength : JVal → Nat
  | .jarr xs => xs.length
  | _ => 0

/-- The requests issued by the mount effect: `useEffect(..., [])` calls
`fetchJobs()` exactly once, with the filter fields still at their
`useState` initial values. -/
def initialMountRequests : List (List (String × String)) :=
  searchRequests defaultFilter

/-- C2: for every listing record, the rendered salary cell follows the
specified precedence — real salary when `salary_min` or `salary_max` is
truthy (both giving a range, only min "From", only max "Up to"), else the
estimated range when an estimated bound is truthy, else the
"Salary not available" marker. -/
theorem salaryCell_follows_spec_precedence (j : Job) :
    salaryCell j = specSalaryCell j := by
  cases hmin : amtTruthy j.salary_min <;>
    cases hmax : amtTruthy j.salary_max <;>
      simp [salaryCell, specSalaryCell, hasRealSalary, hasEst, hmin, hmax]

/-- A falsy amount renders as the empty string inside JSX text. -/
theorem fmtOpt_falsy (o : Option Nat) (h : amtTruthy o = false) :
    fmtOpt o = "" := by
  cases o with
  | none => rfl
  | some v =>
      have hv : v = 0 := by simpa [amtTruthy] using h
      subst hv; rfl

/-- C3 (counterexample): a record with only `salary_est_min = 300000` and
`salary_est_max = 0` renders its estimated range with a blank right-hand
side — the missing bound contributes the empty string, not an explicit
"N/A" marker. -/
theorem estimated_blank_counterexample :
    salaryCell { salary_min := none, salary_max := none,
                 salary_est_min := some 300000, salary_est_max := some 0 } =
      .estimated "3.0 LPA – " ∧
    fmtOpt (some 0) = "" ∧ ("" : String) ≠ "N/A" := by
  refine ⟨rfl, rfl, by decide⟩

/-- C3 (amended): when a record has no truthy real-salary bound and
exactly one truthy estimated bound, the cell is the estimated range with
the missing half rendered as a blank (the empty string), not as an
explicit "N/A" marker. -/
theorem estimated_missing_bound_blank (j : Job)
    (hreal : hasRealSalary j = false) :
    (amtTruthy j.salary_est_min = true → amtTruthy j.salary_est_max = false →
      salaryCell j = .estimated (fmtOpt j.salary_est_min ++ " – ")) ∧
    (amtTruthy j.salary_est_min = false → amtTruthy j.salary_est_max = true →
      salaryCell j = .estimated (" – " ++ fmtOpt j.salary_est_max)) := by
  constructor
  · intro hmin hmax
    simp [salaryCell, hreal, hasEst, hmin, hmax, fmtOpt_falsy _ hmax,
      String.append_empty]
  · intro hmin hmax
    simp [salaryCell, hreal, hasEst, hmin, hmax, fmtOpt_falsy _ hmin,
      String.empty_append]

/-- C3 (witness): the amended statement applied to the concrete record
with `salary_est_min = 300000` and `salary_est_max = 0`. -/
theorem estimated_missing_bound_blank_witness :
    salaryCell { salary_min := none, salary_max := none,
                 salary_est_min := some 300000, salary_est_max := some 0 } =
      .estimated (fmtOpt (some 300000) ++ " – ") :=
  (estimated_missing_bound_blank
      { salary_min := none, salary_max := none,
        salary_est_min := some 300000, salary_est_max := some 0 }
      (by decide)).1 (by decide) (by decide)

/-- C4: on a transport failure or a non-2xx response, one run of the
search operation sets exactly the fixed error message and leaves the
stored result set and the current page at their previous values. -/
theorem fetchJobs_error_preserves_state (s : SearchState) (o : FetchOutcome)
    (h : o = .transportError ∨
      ∃ st body, o = .httpResponse st body ∧ statusOk st = false) :
    fetchJobsStep o s = { s with error := errMsg } ∧
    errMsg = "Unable to fetch jobs. Check backend is running and API key is set." := by
  refine ⟨?_, rfl⟩
  rcases h with h | ⟨st, body, rfl, hst⟩
  · subst h; rfl
  · simp [fetchJobsStep, hst]

/-- C4 (witness): the error-path theorem applied to a transport failure
over a state holding a one-record result set on page 2. -/
theorem fetchJobs_error_preserves_state_witness :
    fetchJobsStep .transportError
        { jobs := .jarr [jobA], currentPage := 2, error := "" } =
      { jobs := .jarr [jobA], currentPage := 2, error := errMsg } :=
  (fetchJobs_error_preserves_state
      { jobs := .jarr [jobA], currentPage := 2, error := "" }
      .transportError (Or.inl rfl)).1

/-- C5 (counterexample): the JSON body `null` parses successfully but is
neither an array nor an object; evaluating `data.jobs` on it throws, so
the search takes the error path and keeps the previous result set — it
does not yield an empty result set. -/
theorem null_body_counterexample :
    jobsFromApi .jnull = .error () ∧
    fetchJobsStep (.httpResponse 200 .jnull)
        { jobs := .jarr [jobA], currentPage := 2, error := "" } =
      { jobs := .jarr [jobA], currentPage := 2, error := errMsg } ∧
    (fetchJobsStep (.httpResponse 200 .jnull)
        { jobs := .jarr [jobA], currentPage := 2, error := "" }).jobs ≠
      .jarr [] := by
  refine ⟨rfl, rfl, ?_⟩
  show JVal.jarr [jobA] ≠ JVal.jarr []
  simp

/-- C5 (amended): an array body is taken directly; a `null` body makes the
decode throw, sending the search down the error path with the result set
unchanged; an object body uses a present truthy `jobs` field and falls
back to the empty sequence on an absent or falsy one; any other body
yields the empty sequence. -/
theorem jobsFromApi_shape_cases :
    (∀ xs : List JVal, jobsFromApi (.jarr xs) = .ok (.jarr xs)) ∧
    jobsFromApi .jnull = .error () ∧
    (∀ s : SearchState,
      fetchJobsStep (.httpResponse 200 .jnull) s = { s with error := errMsg }) ∧
    (∀ fields : List (String × JVal), jobsFromApi (.jobj fields) =
      .ok (match fields.lookup "jobs" with
        | some v => if v.truthy then v else .jarr []
        | none => .jarr [])) ∧
    (∀ b, jobsFromApi (.jbool b) = .ok (.jarr [])) ∧
    (∀ n, jobsFromApi (.jnum n) = .ok (.jarr [])) ∧
    (∀ str, jobsFromApi (.jstr str) = .ok (.jarr [])) :=
  ⟨fun _ => rfl, rfl, fun _ => rfl, fun _ => rfl,
    fun _ => rfl, fun _ => rfl, fun _ => rfl⟩

/-- C6: the built parameter mapping always carries `role`, `city` and
`size=50`, and carries `exp_min` / `exp_max` exactly when the
corresponding filter string is non-empty, with that exact string as
value. -/
theorem buildParams_keys (f : Filter) :
    (buildParams f).lookup "role" = some f.role ∧
    (buildParams f).lookup "city" = some f.city ∧
    (buildParams f).lookup "size" = some "50" ∧
    (buildParams f).lookup "exp_min" =
      (if f.expMin = "" then none else some f.expMin) ∧
    (buildParams f).lookup "exp_max" =
      (if f.expMax = "" then none else some f.expMax) := by
  by_cases h1 : f.expMin = "" <;> by_cases h2 : f.expMax = "" <;>
    simp [buildParams, List.lookup, h1, h2]

/-- C7 (counterexample): the page count of an empty result set is 0, not
the claimed minimum of 1. -/
theorem pageCount_empty_counterexample :
    pageCount 0 = 0 ∧ pageCount 0 ≠ 1 := by
  decide

/-- C7 (amended): the page count is the exact ceiling of the result-set
length divided by the page size, with no lower bound: an empty result set
yields 0, and 25 records at page size 10 yield 3. -/
theorem pageCount_is_ceil (n : Nat) :
    n ≤ jobsPerPage * pageCount n ∧
    jobsPerPage * pageCount n < n + jobsPerPage ∧
    pageCount 0 = 0 ∧ pageCount 25 = 3 := by
  unfold pageCount jobsPerPage
  omega

/-- C9: every positive amount formats as its lakh value rendered with
exactly one decimal digit (the displayed tenths being within half a tenth
of the exact quotient `amount / 100000`) followed by the fixed " LPA"
suffix; an amount of 0 or an absent amount yields `null`; 500000 formats
as "5.0 LPA". -/
theorem formatINR_one_decimal :
    (∀ v : Nat, 0 < v → ∃ tenths : Nat,
      formatINR (some v) =
        some (toString (tenths / 10) ++ "." ++ toString (tenths % 10)
          ++ " LPA") ∧
      10000 * tenths ≤ v + 5000 ∧
      v ≤ 10000 * tenths + 5000) ∧
    formatINR (some 0) = none ∧
    formatINR none = none ∧
    formatINR (some 500000) = some "5.0 LPA" := by
  refine ⟨fun v hv => ⟨(v + 5000) / 10000, ?_, ?_, ?_⟩, rfl, rfl, rfl⟩
  · simp [formatINR, toFixed1LPA, Nat.pos_iff_ne_zero.mp hv]
  · omega
  · omega

/-- C9 (witness): the formatting theorem applied at the concrete amount
500000. -/
theorem formatINR_one_decimal_witness :
    0 < 500000 ∧ ∃ tenths : Nat,
      formatINR (some 500000) =
        some (toString (tenths / 10) ++ "." ++ toString (tenths % 10)
          ++ " LPA") ∧
      10000 * tenths ≤ 500000 + 5000 ∧
      500000 ≤ 10000 * tenths + 5000 :=
  ⟨by decide, formatINR_one_decimal.1 500000 (by decide)⟩

/-- Every pagination transition preserves the pagination invariant. -/
theorem pageInv_step (e : UIEvent) (s : PageState) (h : PageInv s) :
    PageInv (stepUI e s) := by
  obtain ⟨hp, hj⟩ := h
  cases e with
  | prevClick =>
      by_cases h1 : s.page = 1
      · simp only [stepUI, if_pos h1]
        exact ⟨hp, hj⟩
      · simp only [stepUI, if_neg h1]
        refine ⟨?_, fun hjobs => ?_⟩
        · show 1 ≤ s.page - 1
          omega
        · show s.page - 1 ≤ pageCount s.jobs
          have h2 : s.page ≤ pageCount s.jobs := hj hjobs
          omega
  | nextClick =>
      by_cases h1 : s.page = pageCount s.jobs
      · simp only [stepUI, if_pos h1]
        exact ⟨hp, hj⟩
      · simp only [stepUI, if_neg h1]
        refine ⟨?_, fun hjobs => ?_⟩
        · show 1 ≤ s.page + 1
          omega
        · show s.page + 1 ≤ pageCount s.jobs
          have h2 : s.page ≤ pageCount s.jobs := hj hjobs
          omega
  | searchSuccess n =>
      refine ⟨?_, fun hn => ?_⟩
      · show 1 ≤ 1
        exact le_refl 1
      · show 1 ≤ pageCount n
        have hn' : n ≠ 0 := hn
        unfold pageCount jobsPerPage
        omega
  | searchFail => exact ⟨hp, hj⟩

/-- Every state reachable from the mount state satisfies the pagination
invariant. -/
theorem pageInv_run (es : List UIEvent) : PageInv (runUI es) := by
  suffices h : ∀ s, PageInv s → PageInv (es.foldl (fun s e => stepUI e s) s) from
    h initPageState ⟨le_refl 1, fun hn => absurd rfl hn⟩
  induction es with
  | nil => exact fun s hs => hs
  | cons e es ih => exact fun s hs => ih _ (pageInv_step e s hs)

/-- C8 (counterexample): from the mount state (empty result set, page 1)
the "Next" button is not disabled — its check compares against
`Math.ceil(0 / 10) = 0`, never equal to a positive page — so one click
reaches page 2, which exceeds the page count. -/
theorem next_on_empty_counterexample :
    runUI [UIEvent.nextClick] = { jobs := 0, page := 2 } ∧
    pageCount (runUI [UIEvent.nextClick]).jobs = 0 ∧
    ¬((runUI [UIEvent.nextClick]).page ≤
        pageCount (runUI [UIEvent.nextClick]).jobs) := by
  decide

/-- C8 (amended): in every reachable state the page is at least 1 and,
whenever the stored result set is non-empty, at most the page count;
"Previous" is a no-op at page 1, "Next" is a no-op at the page count, a
completed search resets the page to 1, and a failed search changes
nothing.  With an empty result set "Next" is never disabled, so the page
can exceed the page count. -/
theorem pagination_bounds :
    (∀ es : List UIEvent, 1 ≤ (runUI es).page ∧
      ((runUI es).jobs ≠ 0 → (runUI es).page ≤ pageCount (runUI es).jobs)) ∧
    (∀ s : PageState, s.page = 1 → stepUI .prevClick s = s) ∧
    (∀ s : PageState, s.page = pageCount s.jobs → stepUI .nextClick s = s) ∧
    (∀ (n : Nat) (s : PageState), (stepUI (.searchSuccess n) s).page = 1) ∧
    (∀ s : PageState, stepUI .searchFail s = s) := by
  refine ⟨fun es => pageInv_run es, fun s h => ?_, fun s h => ?_,
    fun n s => rfl, fun s => rfl⟩
  · simp [stepUI, h]
  · simp [stepUI, h]

/-- C8 (witness): the amended statement applied to the run that loads 25
records and clicks "Next" once, and to concrete no-op clicks. -/
theorem pagination_bounds_witness :
    (1 ≤ (runUI [UIEvent.searchSuccess 25, UIEvent.nextClick]).page ∧
      (runUI [UIEvent.searchSuccess 25, UIEvent.nextClick]).page ≤
        pageCount (runUI [UIEvent.searchSuccess 25, UIEvent.nextClick]).jobs) ∧
    stepUI UIEvent.prevClick { jobs := 25, page := 1 } =
      { jobs := 25, page := 1 } ∧
    stepUI UIEvent.nextClick { jobs := 25, page := 3 } =
      { jobs := 25, page := 3 } :=
  ⟨⟨(pagination_bounds.1 [UIEvent.searchSuccess 25, UIEvent.nextClick]).1,
    (pagination_bounds.1 [UIEvent.searchSuccess 25, UIEvent.nextClick]).2
      (by decide)⟩,
   pagination_bounds.2.1 { jobs := 25, page := 1 } rfl,
   pagination_bounds.2.2.1 { jobs := 25, page := 3 } (by decide)⟩

/-- C1 (counterexample): against a bare-array upstream whose pages 1, 2, 3
hold 2, 3 and 0 records, a search issues exactly one request — not three —
and stores the 2 records of the single response, not the 5 records of the
first two pages. -/
theorem fetchJobs_three_page_counterexample :
    (searchRequests defaultFilter).length = 1 ∧
    fetchJobs pagedUpstream defaultFilter initialSearchState =
      { jobs := .jarr [jobA, jobB], currentPage := 1, error := "" } ∧
    jarrLength (fetchJobs pagedUpstream defaultFilter initialSearchState).jobs
      = 2 ∧
    ¬((searchRequests defaultFilter).length = 3 ∧
      jarrLength
          (fetchJobs pagedUpstream defaultFilter initialSearchState).jobs
        = 2 + 3) := by
  refine ⟨rfl, rfl, rfl, fun h => absurd h.1 (by decide)⟩

/-- C1 (amended): every search issues exactly one request, whose parameter
mapping carries no `page` key; when the upstream answers it with a 2xx
status and a bare array, that array becomes the stored result set and the
page resets to 1. -/
theorem fetchJobs_single_request
    (upstream : List (String × String) → FetchOutcome) (f : Filter)
    (s : SearchState) (st : Nat) (xs : List JVal)
    (hok : statusOk st = true)
    (hresp : upstream (buildParams f) = .httpResponse st (.jarr xs)) :
    (searchRequests f).length = 1 ∧
    (buildParams f).lookup "page" = none ∧
    fetchJobs upstream f s =
      { jobs := .jarr xs, currentPage := 1, error := "" } := by
  refine ⟨rfl, ?_, ?_⟩
  · by_cases h1 : f.expMin = "" <;> by_cases h2 : f.expMax = "" <;>
      simp [buildParams, List.lookup, h1, h2]
  · simp [fetchJobs, hresp, fetchJobsStep, hok, jobsFromApi]

/-- C1 (witness): the single-request theorem applied to the concrete paged
upstream and the default filter. -/
theorem fetchJobs_single_request_witness :
    statusOk 200 = true ∧
    (searchRequests defaultFilter).length = 1 ∧
    (buildParams defaultFilter).lookup "page" = none ∧
    fetchJobs pagedUpstream defaultFilter initialSearchState =
      { jobs := .jarr [jobA, jobB], currentPage := 1, error := "" } :=
  have h := fetchJobs_single_request pagedUpstream defaultFilter
    initialSearchState 200 [jobA, jobB] rfl rfl
  ⟨rfl, h.1, h.2.1, h.2.2⟩

/-- C10: the mount effect issues exactly one search, whose parameter
mapping carries the default role and city, no experience bounds, and
`size=50`. -/
theorem initial_mount_single_default_search :
    initialMountRequests.length = 1 ∧
    initialMountRequests =
      [[("role", "Software Engineer"), ("city", "Pune"), ("size", "50")]] ∧
    (buildParams defaultFilter).lookup "exp_min" = none ∧
    (buildParams defaultFilter).lookup "exp_max" = none := by
  refine ⟨rfl, rfl, ?_, ?_⟩ <;> rfl

end JobFinder
